import Mathlib

/-!
Verification of the ikitaitoko_bot repository: a shallow embedding of the
webhook normalizer (`src/lambda/handler.py`, `src/line_handler.py`), the
geospatial tool functions (`src/tools.py`) and the webhook entry points
(`src/lambda/handler.py`, `src/agent.py`), with theorems settling the
specification's claims about them.

External services (the GSI address-search API, the Notion API, the LINE
messaging API, the agent runtime, HMAC computation) are modelled as explicit
oracles passed to each function, so every external call and its outcome is
visible in the model.  Python floats are modelled by real numbers, and
Python's float formatting (`str`, `"%.1f"`) by opaque `ℝ → String`
parameters.
-/

/- ## Geocoding: `tools.geocode_address` -/

/-- One element of the JSON array returned by the GSI address-search service:
its `geometry.coordinates` field, in (longitude, latitude) order, as the
comment in `geocode_address` notes. -/
structure GsiMatch where
  coordinates : ℝ × ℝ

/-- Model of `tools.geocode_address`.  The argument is the outcome of the
single HTTP GET: `Except.error` for any transport/timeout/HTTP failure
(the `except` branch), `Except.ok` for the parsed JSON list of matches.
The source takes the first match and swaps (lon, lat) to (lat, lon);
zero matches and transport failure both return `None`. -/
def geocode_address (response : Except String (List GsiMatch)) : Option (ℝ × ℝ) :=
  match response with
  | .error _ => none
  | .ok [] => none
  | .ok (m :: _) => some (m.coordinates.2, m.coordinates.1)

/- ## Great-circle distance: `tools.calculate_distance_km` -/

/-- Model of Python's `math.radians`. -/
noncomputable def radians (x : ℝ) : ℝ := x * Real.pi / 180

/-- Model of Python's `math.atan2 y x`: the argument of the complex number
`x + y*i`, which is the standard atan2 convention (range (-π, π], and
`atan2 0 0 = 0`). -/
noncomputable def atan2 (y x : ℝ) : ℝ := Complex.arg ⟨x, y⟩

/-- The intermediate value `a` of the Haversine formula in
`tools.calculate_distance_km`. -/
noncomputable def haversine_a (lat1 lon1 lat2 lon2 : ℝ) : ℝ :=
  Real.sin (radians (lat2 - lat1) / 2) ^ 2 +
    Real.cos (radians lat1) * Real.cos (radians lat2) *
      Real.sin (radians (lon2 - lon1) / 2) ^ 2

/-- Model of `tools.calculate_distance_km`: Haversine distance with Earth
radius `R = 6371.0`, `c = 2 * atan2 (sqrt a) (sqrt (1 - a))`, result `R * c`. -/
noncomputable def calculate_distance_km (lat1 lon1 lat2 lon2 : ℝ) : ℝ :=
  6371.0 * (2 * atan2 (Real.sqrt (haversine_a lat1 lon1 lat2 lon2))
    (Real.sqrt (1 - haversine_a lat1 lon1 lat2 lon2)))

/- ## `tools.add_place` -/

/-- The payload `add_place` posts to the Notion create-page endpoint:
the five PlaceRecord fields, with `memo` and `address` omitted (`none`)
when empty, as the source only adds those properties `if memo:` / `if address:`. -/
structure CreatePageRequest where
  name : String
  category : String
  priority : String
  memo : Option String
  address : Option String
deriving DecidableEq

/-- Model of `tools.add_place`.  `post` is the outcome of the single
`requests.post` call (`Except.error` carries `str(e)` of the
`RequestException`).  The result is the list of create-record requests
issued together with the returned message.  The source validates nothing
about `name`; it only coerces `category` and `priority` into their
enumerations. -/
def add_place (post : Except String Unit) (name : String)
    (category : String := "その他") (priority : String := "中")
    (memo : String := "") (address : String := "") :
    List CreatePageRequest × String :=
  let category := if category ∈ ["旅行", "飲食店", "買い物", "その他"] then category else "その他"
  let priority := if priority ∈ ["高", "中", "低"] then priority else "中"
  let payload : CreatePageRequest :=
    { name := name, category := category, priority := priority
      memo := if memo = "" then none else some memo
      address := if address = "" then none else some address }
  match post with
  | .ok _ =>
      ([payload],
        "「" ++ name ++ "」を行きたいところリストに追加しました！\nカテゴリ: " ++ category ++
          "\n優先度: " ++ priority ++
          (if address ≠ "" then "\n住所: " ++ address else ""))
  | .error e => ([payload], "場所の追加に失敗しました: " ++ e)

/- ## `tools.get_google_maps_route_url` -/

/-- Model of `urllib.parse.quote`'s safe-character test with the default
`safe='/'`: ASCII letters, digits, `_.-~` and `/` pass through unencoded. -/
def quoteSafe (c : Char) : Bool :=
  c.isAlphanum || c = '_' || c = '.' || c = '-' || c = '~' || c = '/'

/-- Uppercase hexadecimal digit, as `urllib.parse.quote` uses. -/
def hexDigit (n : Nat) : Char :=
  if n < 10 then Char.ofNat ('0'.toNat + n) else Char.ofNat ('A'.toNat + (n - 10))

/-- UTF-8 encoding of one character, as a list of byte values. -/
def utf8Bytes (c : Char) : List Nat :=
  let n := c.toNat
  if n < 0x80 then [n]
  else if n < 0x800 then [0xC0 + n / 0x40, 0x80 + n % 0x40]
  else if n < 0x10000 then
    [0xE0 + n / 0x1000, 0x80 + (n / 0x40) % 0x40, 0x80 + n % 0x40]
  else
    [0xF0 + n / 0x40000, 0x80 + (n / 0x1000) % 0x40, 0x80 + (n / 0x40) % 0x40,
      0x80 + n % 0x40]

/-- Percent-encoding of one byte: `%` followed by two uppercase hex digits. -/
def percentByte (b : Nat) : List Char := ['%', hexDigit (b / 16), hexDigit (b % 16)]

/-- Model of `urllib.parse.quote` with the default `safe='/'`: safe characters
pass through, every other character is percent-encoded byte by byte. -/
def quote (s : String) : String :=
  ⟨s.data.flatMap fun c => if quoteSafe c then [c] else (utf8Bytes c).flatMap percentByte⟩

/-- Model of `tools._TRAVEL_MODE_MAP` (a dict; `dict.get` is association-list
lookup on the keys, which are distinct). -/
def _TRAVEL_MODE_MAP : List (String × String) :=
  [("車", "driving"), ("driving", "driving"),
   ("電車", "transit"), ("transit", "transit"),
   ("徒歩", "walking"), ("walking", "walking"),
   ("自転車", "bicycling"), ("bicycling", "bicycling")]

/-- Model of Python's `str.lower` as used on travel modes: lower-case each
character (ASCII case mapping; the vocabulary keys are ASCII or Japanese,
which lowering leaves unchanged). -/
def pyLower (s : String) : String := ⟨s.data.map Char.toLower⟩

/-- The `waypoint_list` computed by `get_google_maps_route_url`: the pipe-split
waypoints, each stripped, empty entries dropped (empty input yields no list). -/
def waypointList (waypoints : String) : List String :=
  if waypoints = "" then []
  else ((waypoints.splitOn "|").map String.trim).filter (· ≠ "")

/-- The result of `get_google_maps_route_url`: the `params` list the source
builds, the URL joined from it, and the rendered response text. -/
structure RouteUrl where
  params : List String
  url : String
  text : String

/-- Model of `tools.get_google_maps_route_url`: a pure string builder.
Origin, destination and each waypoint are quoted independently; waypoints are
joined with a literal `|`; `travel_mode` is lowercased and looked up in
`_TRAVEL_MODE_MAP`, and the `travelmode` parameter is appended only when the
lookup succeeds; a non-empty unrecognized mode adds a warning line instead. -/
def get_google_maps_route_url (origin destination : String)
    (waypoints : String := "") (travel_mode : String := "") : RouteUrl :=
  let waypoint_list := waypointList waypoints
  let resolved_mode :=
    if travel_mode = "" then "" else (_TRAVEL_MODE_MAP.lookup (pyLower travel_mode)).getD ""
  let params :=
    ["origin=" ++ quote origin, "destination=" ++ quote destination] ++
      (if waypoint_list = [] then []
       else ["waypoints=" ++ String.intercalate "|" (waypoint_list.map quote)]) ++
      (if travel_mode ≠ "" ∧ resolved_mode ≠ "" then ["travelmode=" ++ resolved_mode] else [])
  let url := "https://www.google.com/maps/dir/?api=1&" ++ String.intercalate "&" params
  let text :=
    "Googleマップで経路を確認:\n" ++ url ++ "\n\n出発地: " ++ origin ++ "\n目的地: " ++ destination ++
      (if waypoint_list ≠ [] then "\n経由地: " ++ String.intercalate " → " waypoint_list else "") ++
      (if travel_mode ≠ "" then
        (if resolved_mode ≠ "" then "\n移動手段: " ++ travel_mode
         else "\n※ 移動手段「" ++ travel_mode ++ "」は無効です。Googleマップのデフォルトが使用されます。")
       else "")
  ⟨params, url, text⟩

/- ## Webhook event model (`lambda/handler.py`, `line_handler.py`) -/

/-- The three source types of a LINE message event (`source.type`). -/
inductive SourceType
  | user
  | group
  | room
deriving DecidableEq

/-- The `source` object of an event: its type and the platform identifiers
(`.get` on a missing key yields `none`). -/
structure Source where
  type : SourceType
  userId : Option String
  groupId : Option String
  roomId : Option String

/-- One entry of `message.mention.mentionees`: the span `index`/`length` and
the optional `isSelf` flag (`mentionee.get('isSelf')`). -/
structure Mentionee where
  isSelf : Option Bool
  index : Nat
  length : Nat

/-- The `mention` object of a text message. -/
structure Mention where
  mentionees : List Mentionee

/-- A text message body: its `text` and optional `mention`. -/
structure TextMessage where
  text : String
  mention : Option Mention

/-- The `message` object of an event, by its `type` field: `text`,
`location` (title, address, latitude, longitude), or anything else. -/
inductive MessageContent
  | text (t : TextMessage)
  | location (title address : String) (latitude longitude : Option ℝ)
  | other

/-- One webhook event: its `type` field, `source` and `message`. -/
structure Event where
  eventType : String
  source : Source
  message : MessageContent

/-- The `message.get('mention')` access used by `is_bot_mentioned`
(a location message dict has no `mention` key). -/
def eventMention (e : Event) : Option Mention :=
  match e.message with
  | .text t => t.mention
  | _ => none

/-- Model of `handler.is_bot_mentioned` (and `LineHandler._is_bot_mentioned`):
a one-to-one chat always passes; otherwise some mentionee must carry
`isSelf = True`. -/
def is_bot_mentioned (e : Event) : Bool :=
  match e.source.type with
  | .user => true
  | _ =>
    match eventMention e with
    | none => false
    | some m => m.mentionees.any fun mt => mt.isSelf == some true

/-- Python slice deletion `text[:start] + text[start+length:]` on a list of
characters (Python string indices are code points). -/
def removeSpan (cs : List Char) (start len : Nat) : List Char :=
  cs.take start ++ cs.drop (start + len)

/-- Helper for Python's no-argument `str.split`: the maximal whitespace-free
words of a character list (the accumulator holds the current word reversed). -/
def pyWords : List Char → List Char → List (List Char)
  | [], acc => if acc = [] then [] else [acc.reverse]
  | c :: cs, acc =>
      if c.isWhitespace then
        if acc = [] then pyWords cs [] else acc.reverse :: pyWords cs []
      else pyWords cs (c :: acc)

/-- Model of Python's `str.strip` on a character list: drop whitespace from
both ends. -/
def pyStrip (cs : List Char) : List Char :=
  ((cs.dropWhile Char.isWhitespace).reverse.dropWhile Char.isWhitespace).reverse

/-- Model of `' '.join(text.split()).strip()`: whitespace collapsing. -/
def collapseWS (cs : List Char) : String :=
  String.mk (pyStrip (List.intercalate [' '] (pyWords cs [])))

/-- Model of `handler.extract_message_text` (and
`LineHandler._extract_message_text`): mention spans are deleted after sorting
the mentionees by `index` in descending order (Python's `sorted` with
`reverse=True` is stable), then whitespace is collapsed. -/
def extract_message_text (msg : TextMessage) : String :=
  let cs := msg.text.data
  let cs :=
    match msg.mention with
    | none => cs
    | some m =>
        (m.mentionees.mergeSort fun a b => decide (b.index ≤ a.index)).foldl
          (fun t mt => removeSpan t mt.index mt.length) cs
  collapseWS cs

/-- Model of `handler.extract_location_text`: the synthesized instruction for
a location message.  `pyStr` models Python's `str` on a float. -/
def extract_location_text (pyStr : ℝ → String) (title address : String)
    (latitude longitude : Option ℝ) : String :=
  String.intercalate "\n"
    (["ユーザーが現在地を共有しました。"] ++
      (if title ≠ "" then ["場所名: " ++ title] else []) ++
      (if address ≠ "" then ["住所: " ++ address] else []) ++
      (match latitude, longitude with
       | some la, some lo => ["緯度: " ++ pyStr la ++ ", 経度: " ++ pyStr lo]
       | _, _ => []))

/-- Model of `handler.get_reply_to_id`: group id, room id, or user id. -/
def get_reply_to_id (e : Event) : Option String :=
  match e.source.type with
  | .group => e.source.groupId
  | .room => e.source.roomId
  | .user => e.source.userId

/-- The fixed apology pushed when processing a message raises. -/
def apologyText : String :=
  "申し訳ありません。エラーが発生しました。しばらくしてからもう一度お試しください。"

/-- An external action performed while processing one event: an AgentCore
invocation (`invoke_agent_core`) or a LINE push (`push_message`). -/
inductive BotAction
  | invoked (prompt : String)
  | pushed (target : Option String) (text : String)
deriving DecidableEq

/-- The dispatch tail of `handler.process_event`: skip an empty message,
otherwise invoke the agent and push its response; a raising agent call
(`agent prompt = none`) is caught and answered with the fixed apology. -/
def dispatch (agent : String → Option String) (e : Event) (user_message : String) :
    List BotAction :=
  if user_message = "" then []
  else
    match agent user_message with
    | some response => [.invoked user_message, .pushed (get_reply_to_id e) response]
    | none => [.invoked user_message, .pushed (get_reply_to_id e) apologyText]

/-- Model of `handler.process_event`: non-message events and non-text,
non-location messages are dropped; a text message is dropped unless the bot
is mentioned; the extracted message, when non-empty, is dispatched. -/
def process_event (agent : String → Option String) (pyStr : ℝ → String)
    (e : Event) : List BotAction :=
  if e.eventType ≠ "message" then []
  else
    match e.message with
    | .other => []
    | .location title address la lo =>
        dispatch agent e (extract_location_text pyStr title address la lo)
    | .text t =>
        if is_bot_mentioned e then dispatch agent e (extract_message_text t) else []

/- ## Webhook entry points: `lambda_handler` and `agent.callback` -/

/-- Model of `handler.verify_signature`.  `sigOf secret body` stands for the
base64 HMAC-SHA256 digest the handler computes; `hmac.compare_digest` is
string equality. -/
def verify_signature (sigOf : String → String → String)
    (channel_secret body signature : String) : Bool :=
  if signature = "" then false
  else if channel_secret = "" then false
  else signature = sigOf channel_secret body

/-- The outcome of one `lambda_handler` call: the HTTP status code returned to
the platform, the `status` field of the JSON body, and every external action
performed while processing the events. -/
structure LambdaResult where
  statusCode : Nat
  status : String
  actions : List BotAction
deriving DecidableEq

/-- Model of `handler.lambda_handler`.  `parse` is `json.loads` on the body
(`none` models a raise, caught by the outer handler which still returns 200).
An invalid signature is rejected with status code 200 and no event is
processed; otherwise every parsed event is processed in order (per-event
exceptions are already absorbed inside `process_event`'s model). -/
def lambda_handler (sigOf : String → String → String) (channel_secret : String)
    (agent : String → Option String) (pyStr : ℝ → String)
    (parse : String → Option (List Event)) (body signature : String) : LambdaResult :=
  if verify_signature sigOf channel_secret body signature = false then
    ⟨200, "invalid signature", []⟩
  else
    match parse body with
    | none => ⟨200, "ok", []⟩
    | some [] => ⟨200, "ok", []⟩
    | some events => ⟨200, "ok", (events.map (process_event agent pyStr)).flatten⟩

/-- Model of the Flask route `agent.callback`: `LineHandler.handle_webhook`
delegates to the LINE SDK's `WebhookHandler.handle`, which raises
`InvalidSignatureError` when the signature check (the same base64
HMAC-SHA256 comparison) fails, and `callback` answers that with
`abort(400)`; a valid request is answered `"OK"` with HTTP 200. -/
def callback (sigOf : String → String → String)
    (channel_secret body signature : String) : Nat :=
  if verify_signature sigOf channel_secret body signature then 200 else 400

/- ## `tools.find_nearby_places` -/

/-- One record of the Notion query result, reduced to the three properties
the source extracts: the first title `plain_text` (with its missing-name
default already applied), the first `住所` rich-text `plain_text` (empty
string when absent) and the `カテゴリ` select name (empty string when null). -/
structure NotionItem where
  name : String
  address : String
  category : String
deriving DecidableEq

/-- One entry of `places_with_distance`. -/
structure Place where
  name : String
  category : String
  address : String
  distance : ℝ

/-- One entry of `places_without_address`: the dict appended for a record
with an empty address (no `address` key) or an ungeocodable address. -/
structure Unlocated where
  name : String
  category : String
  address : Option String

/-- The record-classification loop of `find_nearby_places` (lines 308–345):
returns `places_with_distance` (unsorted), `places_without_address`, and the
addresses sent to the geocoder, each in source order.  `geo` is
`geocode_address` composed with the address-search service's responses. -/
noncomputable def classify (geo : String → Option (ℝ × ℝ)) (refLat refLon maxD : ℝ) :
    List NotionItem → List Place × List Unlocated × List String
  | [] => ([], [], [])
  | it :: rest =>
    let r := classify geo refLat refLon maxD rest
    if it.address = "" then (r.1, ⟨it.name, it.category, none⟩ :: r.2.1, r.2.2)
    else
      match geo it.address with
      | none => (r.1, ⟨it.name, it.category, some it.address⟩ :: r.2.1, it.address :: r.2.2)
      | some (plat, plon) =>
        if calculate_distance_km refLat refLon plat plon ≤ maxD then
          (⟨it.name, it.category, it.address, calculate_distance_km refLat refLon plat plon⟩ :: r.1,
            r.2.1, it.address :: r.2.2)
        else (r.1, r.2.1, it.address :: r.2.2)

/-- The comparison `places_with_distance.sort(key=lambda x: x["distance"])`
sorts by: `a` no farther than `b`. -/
noncomputable def placeLE (a b : Place) : Bool := decide (a.distance ≤ b.distance)

/-- The in-place `places_with_distance.sort(key=lambda x: x["distance"])`:
Python's sort is stable, modelled by a stable merge sort. -/
noncomputable def sortPlaces (places : List Place) : List Place :=
  places.mergeSort placeLE

/-- The numbered rendering of the kept places, starting at index `i`
(`enumerate(places_with_distance, 1)`); `fmt1` models Python's `"{:.1f}"`. -/
noncomputable def numberPlaces (fmt1 : ℝ → String) : Nat → List Place → List String
  | _, [] => []
  | i, p :: rest =>
      (toString i ++ ". " ++ p.name ++
        (if p.category ≠ "" then " [" ++ p.category ++ "]" else "") ++
        "\n   距離: " ++ fmt1 p.distance ++ "km" ++ "\n   住所: " ++ p.address) ::
        numberPlaces fmt1 (i + 1) rest

/-- The `result_lines` built at the end of `find_nearby_places` (lines
351–369): header, then the numbered list (or the explicit no-match line),
then at most 5 unlocatable names with the count of any remainder.
`pyStr` models Python's `str` on a float. -/
noncomputable def renderLines (pyStr fmt1 : ℝ → String) (reference_location : String)
    (maxD : ℝ) (sorted : List Place) (unloc : List Unlocated) : List String :=
  ["「" ++ reference_location ++ "」から " ++ pyStr maxD ++ "km 以内の場所:\n"] ++
    (match sorted with
     | [] => ["該当する場所はありませんでした（" ++ pyStr maxD ++ "km以内）。"]
     | _ => numberPlaces fmt1 1 sorted) ++
    (match unloc with
     | [] => []
     | _ =>
      ("\n※ 住所が未登録で検索できなかった場所が " ++ toString unloc.length ++ " 件あります:") ::
        (unloc.take 5).map (fun u => "  - " ++ u.name) ++
        (if 5 < unloc.length then ["  ... 他 " ++ toString (unloc.length - 5) ++ " 件"] else []))

/-- The outcome of one `find_nearby_places` call: the returned message,
whether the Notion database query was issued, and every query sent to the
address-search service, in order. -/
structure NearbyTrace where
  message : String
  notionQueried : Bool
  geocodeQueries : List String

/-- Model of `tools.find_nearby_places`.  `env` is the address-search
service's response per query; `notion` the outcome of the Notion database
query (`Except.error` carries `str(e)`).  An unresolvable reference location
returns immediately: the Notion query is never issued and no further geocode
call is made. -/
noncomputable def find_nearby_places (env : String → Except String (List GsiMatch))
    (notion : Except String (List NotionItem)) (pyStr fmt1 : ℝ → String)
    (reference_location : String) (max_distance_km : ℝ) : NearbyTrace :=
  match geocode_address (env reference_location) with
  | none =>
      ⟨"基準地点「" ++ reference_location ++
        "」の座標を取得できませんでした。より具体的な住所や場所名を指定してください。",
        false, [reference_location]⟩
  | some (refLat, refLon) =>
    match notion with
    | .error e => ⟨"Notionデータベースの取得に失敗しました: " ++ e, true, [reference_location]⟩
    | .ok results =>
      if results = [] then
        ⟨"行きたいところリストに登録されている場所がありません。", true, [reference_location]⟩
      else
        let c := classify (fun q => geocode_address (env q)) refLat refLon max_distance_km results
        ⟨String.intercalate "\n"
            (renderLines pyStr fmt1 reference_location max_distance_km
              (sortPlaces c.1) c.2.1),
          true, reference_location :: c.2.2⟩

/-- Specification-side filter for one record (§4.4 steps 3–4): the record is
kept with its distance exactly when its address is non-empty, geocodes, and
lies within `maxD` of the reference coordinate. -/
noncomputable def withinRadius (geo : String → Option (ℝ × ℝ)) (refLat refLon maxD : ℝ)
    (it : NotionItem) : Option Place :=
  if it.address = "" then none
  else
    match geo it.address with
    | none => none
    | some (plat, plon) =>
      if calculate_distance_km refLat refLon plat plon ≤ maxD then
        some ⟨it.name, it.category, it.address, calculate_distance_km refLat refLon plat plon⟩
      else none

/-- Specification-side span removal (§4.7): remove the given (start, length)
spans in descending start order, stably sorted. -/
def stripSpansDesc (spans : List (Nat × Nat)) (cs : List Char) : List Char :=
  (spans.mergeSort fun a b => decide (b.1 ≤ a.1)).foldl
    (fun t sp => removeSpan t sp.1 sp.2) cs

/-- The mention spans of a text message, as (start, length) pairs. -/
def mentionSpans (msg : TextMessage) : List (Nat × Nat) :=
  match msg.mention with
  | none => []
  | some m => m.mentionees.map fun mt => (mt.index, mt.length)

/- ## Shared lemmas -/

/-- The haversine intermediate vanishes on the diagonal. -/
theorem haversine_a_self (lat lon : ℝ) : haversine_a lat lon lat lon = 0 := by
  simp [haversine_a, radians]

/-- The haversine intermediate is symmetric in the two points. -/
theorem haversine_a_symm (lat1 lon1 lat2 lon2 : ℝ) :
    haversine_a lat1 lon1 lat2 lon2 = haversine_a lat2 lon2 lat1 lon1 := by
  have h : ∀ u v : ℝ,
      Real.sin (radians (u - v) / 2) ^ 2 = Real.sin (radians (v - u) / 2) ^ 2 := by
    intro u v
    rw [show radians (u - v) / 2 = -(radians (v - u) / 2) by rw [radians, radians]; ring,
      Real.sin_neg, neg_sq]
  rw [haversine_a, haversine_a, h lat2 lat1, h lon2 lon1,
    mul_comm (Real.cos (radians lat1))]

/-- atan2 of the origin-pointing ray: `atan2 0 1 = 0`. -/
theorem atan2_zero_one : atan2 0 1 = 0 := by
  have h : (⟨1, 0⟩ : ℂ) = 1 := by
    apply Complex.ext <;> simp
  rw [atan2, h, Complex.arg_one]

/-- atan2 with a nonnegative ordinate is nonnegative. -/
theorem atan2_nonneg (y x : ℝ) (h : 0 ≤ y) : 0 ≤ atan2 y x :=
  Complex.arg_nonneg_iff.2 h

/-- Distance from a point to itself is zero. -/
theorem calculate_distance_km_self (lat lon : ℝ) :
    calculate_distance_km lat lon lat lon = 0 := by
  rw [calculate_distance_km, haversine_a_self]
  norm_num [atan2_zero_one]

/-- Distance is nonnegative. -/
theorem calculate_distance_km_nonneg (lat1 lon1 lat2 lon2 : ℝ) :
    0 ≤ calculate_distance_km lat1 lon1 lat2 lon2 := by
  rw [calculate_distance_km]
  have h := atan2_nonneg (Real.sqrt (haversine_a lat1 lon1 lat2 lon2))
    (Real.sqrt (1 - haversine_a lat1 lon1 lat2 lon2)) (Real.sqrt_nonneg _)
  nlinarith

/- ## Claim theorems -/

/-- C3: `geocode_address` returns the first match's coordinates with the
service's (longitude, latitude) order swapped to (latitude, longitude); it
returns `none` both when the service returns zero matches and on any
transport/timeout failure, and the two outcomes are identical to the
caller. -/
theorem geocode_address_spec :
    (∀ (m : GsiMatch) (rest : List GsiMatch),
      geocode_address (.ok (m :: rest)) = some (m.coordinates.2, m.coordinates.1)) ∧
    geocode_address (.ok []) = none ∧
    (∀ e : String, geocode_address (.error e) = none) ∧
    (∀ e : String, geocode_address (.error e) = geocode_address (.ok [])) :=
  ⟨fun _ _ => rfl, rfl, fun _ => rfl, fun _ => rfl⟩

/-- C9: for every coordinate pair, `calculate_distance_km` (the Haversine
formula with Earth radius 6371.0, over the real-number model of floats) is
zero on the diagonal, symmetric, and nonnegative. -/
theorem calculate_distance_km_props (lat1 lon1 lat2 lon2 : ℝ) :
    calculate_distance_km lat1 lon1 lat1 lon1 = 0 ∧
    calculate_distance_km lat1 lon1 lat2 lon2 = calculate_distance_km lat2 lon2 lat1 lon1 ∧
    0 ≤ calculate_distance_km lat1 lon1 lat2 lon2 :=
  ⟨calculate_distance_km_self lat1 lon1,
    by rw [calculate_distance_km, calculate_distance_km, haversine_a_symm],
    calculate_distance_km_nonneg lat1 lon1 lat2 lon2⟩

/-- C1: for a text-kind event, the mention-check passes iff the source is a
one-to-one chat, or the source is a group/room and some mentionee carries
`isSelf = true`; in particular an individual-source event always passes and
a group-source event without a mention never does. -/
theorem is_bot_mentioned_spec (etype : String) (src : Source) (t : TextMessage) :
    (is_bot_mentioned ⟨etype, src, .text t⟩ = true ↔
      (src.type = .user ∨ ((src.type = .group ∨ src.type = .room) ∧
        ∃ m, t.mention = some m ∧ ∃ mt ∈ m.mentionees, mt.isSelf = some true))) ∧
    (src.type = .user → is_bot_mentioned ⟨etype, src, .text t⟩ = true) ∧
    (src.type = .group → t.mention = none →
      is_bot_mentioned ⟨etype, src, .text t⟩ = false) := by
  obtain ⟨st, uid, gid, rid⟩ := src
  cases st <;> cases hm : t.mention <;>
    simp [is_bot_mentioned, eventMention, hm, List.any_eq_true, beq_iff_eq]

/-- C2 counterexample: `add_place` with `name = ""` still issues the
create-record call and, when the transport succeeds, returns the normal
success message rather than a failure description. -/
theorem add_place_empty_name_not_rejected :
    (add_place (.ok ()) "" "その他" "中" "" "").1 ≠ [] ∧
    (add_place (.ok ()) "" "その他" "中" "" "").2 =
      "「」を行きたいところリストに追加しました！\nカテゴリ: その他\n優先度: 中" := by
  constructor
  · decide
  · rfl

/-- C2 (amended): `add_place` performs no empty-name validation: for every
`name` (including `""`) it issues exactly one create-record request carrying
that name, and the failure-description result is returned exactly on
transport failure, the success message otherwise. -/
theorem add_place_no_name_validation (post : Except String Unit)
    (name category priority memo address : String) :
    (add_place post name category priority memo address).1.length = 1 ∧
    (add_place post name category priority memo address).1.map CreatePageRequest.name
      = [name] ∧
    (∀ e, post = .error e →
      (add_place post name category priority memo address).2 =
        "場所の追加に失敗しました: " ++ e) ∧
    (post = .ok () →
      (add_place post name category priority memo address).2 =
        "「" ++ name ++ "」を行きたいところリストに追加しました！\nカテゴリ: " ++
          (if category ∈ ["旅行", "飲食店", "買い物", "その他"] then category else "その他") ++
          "\n優先度: " ++ (if priority ∈ ["高", "中", "低"] then priority else "中") ++
          (if address ≠ "" then "\n住所: " ++ address else "")) := by
  cases post <;> simp [add_place]

/-- C6 counterexample: the Flask webhook endpoint `agent.callback` answers a
request whose signature fails verification with HTTP 400, not with a success
acknowledgment. -/
theorem callback_invalid_signature_not_200 :
    callback (fun _ _ => "GOOD") "secret" "body" "BAD" = 400 ∧
    ¬ callback (fun _ _ => "GOOD") "secret" "body" "BAD" = 200 := by
  constructor <;> decide

/-- C6 (amended): the Lambda webhook handler rejects a request whose body
fails signature verification without processing any event, while still
returning HTTP 200 (status `"invalid signature"`) to the platform; the Flask
callback in `agent.py` instead aborts with HTTP 400. -/
theorem lambda_handler_invalid_signature (sigOf : String → String → String)
    (channel_secret : String) (agent : String → Option String) (pyStr : ℝ → String)
    (parse : String → Option (List Event)) (body signature : String)
    (h : verify_signature sigOf channel_secret body signature = false) :
    lambda_handler sigOf channel_secret agent pyStr parse body signature =
      ⟨200, "invalid signature", []⟩ ∧
    callback sigOf channel_secret body signature = 400 := by
  constructor
  · rw [lambda_handler, h]; rfl
  · rw [callback, h]; rfl

/-- C6 witness: a concrete request whose signature fails verification. -/
theorem lambda_handler_invalid_signature_witness :
    verify_signature (fun _ _ => "GOOD") "secret" "body" "BAD" = false ∧
    lambda_handler (fun _ _ => "GOOD") "secret" (fun _ => none) (fun _ => "")
      (fun _ => some []) "body" "BAD" = ⟨200, "invalid signature", []⟩ :=
  ⟨rfl,
    (lambda_handler_invalid_signature (fun _ _ => "GOOD") "secret" (fun _ => none)
      (fun _ => "") (fun _ => some []) "body" "BAD" rfl).1⟩

/-- C7: when the reference location cannot be geocoded, `find_nearby_places`
returns the failure message immediately: the Notion database query is never
issued and no geocode call beyond the reference lookup is made. -/
theorem find_nearby_places_unresolved (env : String → Except String (List GsiMatch))
    (notion : Except String (List NotionItem)) (pyStr fmt1 : ℝ → String)
    (reference_location : String) (max_distance_km : ℝ)
    (h : geocode_address (env reference_location) = none) :
    find_nearby_places env notion pyStr fmt1 reference_location max_distance_km =
      ⟨"基準地点「" ++ reference_location ++
        "」の座標を取得できませんでした。より具体的な住所や場所名を指定してください。",
        false, [reference_location]⟩ := by
  rw [find_nearby_places, h]

/-- C7 witness: a concrete service that resolves nothing. -/
theorem find_nearby_places_unresolved_witness :
    geocode_address ((fun _ => Except.ok []) "新宿駅") = none ∧
    find_nearby_places (fun _ => Except.ok []) (.ok []) (fun _ => "") (fun _ => "")
      "新宿駅" 10 =
      ⟨"基準地点「" ++ "新宿駅" ++
        "」の座標を取得できませんでした。より具体的な住所や場所名を指定してください。",
        false, ["新宿駅"]⟩ :=
  ⟨rfl, find_nearby_places_unresolved (fun _ => Except.ok []) (.ok [])
    (fun _ => "") (fun _ => "") "新宿駅" 10 rfl⟩

/-- C10: a text-kind event whose message is empty after mention removal and
whitespace collapsing is never dispatched: the agent is not invoked and no
reply is pushed. -/
theorem process_event_empty_message (agent : String → Option String) (pyStr : ℝ → String)
    (etype : String) (src : Source) (t : TextMessage)
    (h : extract_message_text t = "") :
    process_event agent pyStr ⟨etype, src, .text t⟩ = [] := by
  by_cases he : etype = "message" <;>
    simp [process_event, he, dispatch, h]

/-- C10 witness: an all-whitespace one-to-one text message: the mention-check
passes, yet nothing is dispatched. -/
theorem process_event_empty_message_witness :
    extract_message_text ⟨"   ", none⟩ = "" ∧
    is_bot_mentioned ⟨"message", ⟨.user, some "U", none, none⟩, .text ⟨"   ", none⟩⟩
      = true ∧
    process_event (fun s => some s) (fun _ => "")
      ⟨"message", ⟨.user, some "U", none, none⟩, .text ⟨"   ", none⟩⟩ = [] :=
  ⟨rfl, rfl,
    process_event_empty_message (fun s => some s) (fun _ => "") "message"
      ⟨.user, some "U", none, none⟩ ⟨"   ", none⟩ rfl⟩

/-- C5: for every text-kind message, `extract_message_text` equals: remove
the mention spans from the text in descending start-offset order (stably
sorted) and collapse the remaining whitespace; in particular
`"@Bot hello world"` with the single self-mention span (start 0, length 4)
yields `"hello world"`. -/
theorem extract_message_text_spec (msg : TextMessage) :
    extract_message_text msg =
      collapseWS (stripSpansDesc (mentionSpans msg) msg.text.data) ∧
    extract_message_text ⟨"@Bot hello world", some ⟨[⟨some true, 0, 4⟩]⟩⟩
      = "hello world" := by
  constructor
  · obtain ⟨text, mention⟩ := msg
    cases mention with
    | none => simp [extract_message_text, stripSpansDesc, mentionSpans, List.mergeSort_nil]
    | some m =>
      show collapseWS _ = collapseWS _
      congr 1
      rw [stripSpansDesc, show mentionSpans ⟨text, some m⟩ =
        m.mentionees.map (fun mt => (mt.index, mt.length)) from rfl]
      rw [← List.map_mergeSort (r := fun a b => decide (b.index ≤ a.index))
        (fun a _ b _ => rfl), List.foldl_map]
  · simp only [extract_message_text, List.mergeSort_singleton]
    rfl

/-- Every valid character's code point is below 0x110000. -/
theorem char_toNat_lt (c : Char) : c.toNat < 1114112 := by
  rcases c.valid with h | ⟨h1, h2⟩
  · have h3 : c.toNat < 0xd800 := h
    omega
  · exact h2

/-- No hexadecimal digit renders as the pipe character. -/
theorem hexDigit_ne_pipe : ∀ k < 16, hexDigit k ≠ '|' := by decide

/-- UTF-8 bytes are byte-sized. -/
theorem utf8Bytes_lt (c : Char) : ∀ b ∈ utf8Bytes c, b < 256 := by
  have hc := char_toNat_lt c
  intro b hb
  simp only [utf8Bytes] at hb
  split_ifs at hb <;> simp at hb <;> omega

/-- The percent-encoder never emits a pipe character: `|` is not safe, and
its encoding (and that of every other character) uses only `%` and hex
digits. -/
theorem quote_no_pipe (s : String) : '|' ∉ (quote s).data := by
  intro h
  have hd : (quote s).data = s.data.flatMap
      (fun c => if quoteSafe c then [c] else (utf8Bytes c).flatMap percentByte) := rfl
  rw [hd, List.mem_flatMap] at h
  obtain ⟨c, _, hc⟩ := h
  by_cases hq : quoteSafe c
  · rw [if_pos hq, List.mem_singleton] at hc
    subst hc
    exact absurd hq (by decide)
  · rw [if_neg hq, List.mem_flatMap] at hc
    obtain ⟨b, hb, hpb⟩ := hc
    have hblt := utf8Bytes_lt c b hb
    rw [percentByte] at hpb
    simp only [List.mem_cons, List.not_mem_nil, or_false] at hpb
    rcases hpb with h1 | h1 | h1
    · exact absurd h1 (by decide)
    · exact hexDigit_ne_pipe (b / 16) (by omega) h1.symm
    · exact hexDigit_ne_pipe (b % 16) (by omega) h1.symm

/-- Two appends whose left parts start with different characters differ. -/
theorem append_ne_of_front_ne {s t : String} (v w : String) (a b : Char)
    (as bs : List Char) (hs : s.data = a :: as) (ht : t.data = b :: bs)
    (hab : a ≠ b) : s ++ v ≠ t ++ w := by
  intro he
  have h2 := congrArg String.data he
  rw [String.data_append, String.data_append, hs, ht] at h2
  simp at h2
  exact hab h2.1

/-- Every value of the travel-mode vocabulary is non-empty. -/
theorem travel_mode_map_values (k v : String)
    (h : _TRAVEL_MODE_MAP.lookup k = some v) : v ≠ "" := by
  simp only [_TRAVEL_MODE_MAP, List.lookup] at h
  repeat' split at h
  all_goals try exact (Option.noConfusion h)
  all_goals (injection h with h2; subst h2; decide)

/-- The empty travel mode is not in the vocabulary. -/
theorem empty_lookup_none : _TRAVEL_MODE_MAP.lookup (pyLower "") = none := by decide

/-- A `travelmode=` parameter can only come from the travel-mode branch of
the URL builder: the origin/destination/waypoints parameters all start with
a different character. -/
theorem mem_params_travelmode (origin destination waypoints travel_mode v : String)
    (h : ("travelmode=" ++ v)
      ∈ (get_google_maps_route_url origin destination waypoints travel_mode).params) :
    travel_mode ≠ "" ∧ (_TRAVEL_MODE_MAP.lookup (pyLower travel_mode)).getD "" ≠ "" := by
  simp only [get_google_maps_route_url] at h
  rw [List.mem_append, List.mem_append] at h
  rcases h with (h | h) | h
  · rcases List.mem_cons.1 h with h1 | h1
    · exact absurd h1 (append_ne_of_front_ne _ _ 't' 'o' _ _ rfl rfl (by decide))
    · rcases List.mem_cons.1 h1 with h2 | h2
      · exact absurd h2 (append_ne_of_front_ne _ _ 't' 'd' _ _ rfl rfl (by decide))
      · exact absurd h2 (List.not_mem_nil _)
  · by_cases hwl : waypointList waypoints = []
    · rw [if_pos hwl] at h
      exact absurd h (List.not_mem_nil _)
    · rw [if_neg hwl] at h
      rcases List.mem_cons.1 h with h1 | h1
      · exact absurd h1 (append_ne_of_front_ne _ _ 't' 'w' _ _ rfl rfl (by decide))
      · exact absurd h1 (List.not_mem_nil _)
  · by_cases hc : travel_mode ≠ "" ∧
        (if travel_mode = "" then ""
         else (_TRAVEL_MODE_MAP.lookup (pyLower travel_mode)).getD "") ≠ ""
    · refine ⟨hc.1, ?_⟩
      have h3 := hc.2
      rw [if_neg hc.1] at h3
      exact h3
    · rw [if_neg hc] at h
      exact absurd h (List.not_mem_nil _)

/-- C8: the route URL percent-encodes origin, destination and each waypoint
independently (and the encoder can never emit a pipe, so the pipes joining
the waypoints parameter are exactly the literal separators); a `travelmode`
parameter is present iff the lowercased travel mode is in the fixed bilingual
vocabulary; an unrecognized non-empty mode is omitted from the URL and the
rendered text ends with the invalid-mode warning. -/
theorem get_google_maps_route_url_spec (origin destination waypoints travel_mode : String) :
    (∀ s : String, '|' ∉ (quote s).data) ∧
    ("origin=" ++ quote origin)
      ∈ (get_google_maps_route_url origin destination waypoints travel_mode).params ∧
    ("destination=" ++ quote destination)
      ∈ (get_google_maps_route_url origin destination waypoints travel_mode).params ∧
    (waypointList waypoints ≠ [] →
      ("waypoints=" ++ String.intercalate "|" ((waypointList waypoints).map quote))
        ∈ (get_google_maps_route_url origin destination waypoints travel_mode).params) ∧
    ((∃ v, ("travelmode=" ++ v)
        ∈ (get_google_maps_route_url origin destination waypoints travel_mode).params) ↔
      (_TRAVEL_MODE_MAP.lookup (pyLower travel_mode)).isSome) ∧
    (_TRAVEL_MODE_MAP.lookup (pyLower travel_mode) = none → travel_mode ≠ "" →
      (∀ v, ("travelmode=" ++ v)
          ∉ (get_google_maps_route_url origin destination waypoints travel_mode).params) ∧
      ∃ s, (get_google_maps_route_url origin destination waypoints travel_mode).text =
        s ++ ("\n※ 移動手段「" ++ travel_mode ++
          "」は無効です。Googleマップのデフォルトが使用されます。")) := by
  refine ⟨quote_no_pipe, ?_, ?_, ?_, ?_, ?_⟩
  · simp [get_google_maps_route_url]
  · simp [get_google_maps_route_url]
  · intro hw
    simp [get_google_maps_route_url, hw]
  · constructor
    · rintro ⟨v, hv⟩
      have h2 := mem_params_travelmode _ _ _ _ _ hv
      cases hlk : _TRAVEL_MODE_MAP.lookup (pyLower travel_mode) with
      | none => rw [hlk] at h2; exact absurd rfl h2.2
      | some v0 => rfl
    · intro hs
      cases hlk : _TRAVEL_MODE_MAP.lookup (pyLower travel_mode) with
      | none => rw [hlk] at hs; exact absurd hs (by simp)
      | some v0 =>
        have h0 : travel_mode ≠ "" := by
          intro hh
          rw [hh, empty_lookup_none] at hlk
          exact Option.noConfusion hlk
        have hv0 := travel_mode_map_values _ _ hlk
        refine ⟨v0, ?_⟩
        simp [get_google_maps_route_url, h0, hlk, hv0]
  · intro hlk h0
    constructor
    · intro v hv
      have h2 := mem_params_travelmode _ _ _ _ _ hv
      rw [hlk] at h2
      exact absurd rfl h2.2
    · have hres : (if travel_mode = "" then ""
          else (_TRAVEL_MODE_MAP.lookup (pyLower travel_mode)).getD "") = "" := by
        rw [if_neg h0, hlk]
        rfl
      simp only [get_google_maps_route_url, hres]
      rw [if_pos h0, if_neg (c := (("" : String) ≠ "")) (fun hh => hh rfl)]
      exact ⟨_, rfl⟩

/-- The kept records of the classification loop are exactly the records the
specification-side filter keeps, in source order. -/
theorem classify_fst (geo : String → Option (ℝ × ℝ)) (refLat refLon maxD : ℝ)
    (l : List NotionItem) :
    (classify geo refLat refLon maxD l).1 =
      l.filterMap (withinRadius geo refLat refLon maxD) := by
  induction l with
  | nil => rfl
  | cons it rest ih =>
    by_cases ha : it.address = ""
    · simp [classify, withinRadius, ha, ih]
    · cases hg : geo it.address with
      | none => simp [classify, withinRadius, ha, hg, ih]
      | some p =>
        obtain ⟨plat, plon⟩ := p
        by_cases hd : calculate_distance_km refLat refLon plat plon ≤ maxD
        · simp [classify, withinRadius, ha, hg, hd, ih]
        · simp [classify, withinRadius, ha, hg, hd, ih]

/-- The distance comparison is transitive. -/
theorem placeLE_trans : ∀ a b c : Place, placeLE a b → placeLE b c → placeLE a c := by
  intro a b c hab hbc
  simp only [placeLE, decide_eq_true_eq] at *
  exact le_trans hab hbc

/-- The distance comparison is total. -/
theorem placeLE_total : ∀ a b : Place, placeLE a b || placeLE b a := by
  intro a b
  simp only [placeLE, Bool.or_eq_true, decide_eq_true_eq]
  exact le_total _ _

/-- Decomposition of the rendered result lines: the explicit no-match line
appears when nothing was kept; otherwise the output starts with the header
followed by the numbered ranked list; and the output always ends with the
unlocatable section — at most 5 names (`take 5`) followed by the count of
any remainder exactly when more than 5 records were unlocatable. -/
theorem renderLines_decomp (pyStr fmt1 : ℝ → String) (refLoc : String) (maxD : ℝ)
    (sorted : List Place) (unloc : List Unlocated) :
    (sorted = [] →
      ("該当する場所はありませんでした（" ++ pyStr maxD ++ "km以内）。") ∈
        renderLines pyStr fmt1 refLoc maxD sorted unloc) ∧
    (sorted ≠ [] →
      ∃ tail, renderLines pyStr fmt1 refLoc maxD sorted unloc =
        ("「" ++ refLoc ++ "」から " ++ pyStr maxD ++ "km 以内の場所:\n") ::
          numberPlaces fmt1 1 sorted ++ tail) ∧
    (∃ pre, renderLines pyStr fmt1 refLoc maxD sorted unloc =
      pre ++ (match unloc with
        | [] => []
        | _ =>
          ("\n※ 住所が未登録で検索できなかった場所が " ++ toString unloc.length ++
              " 件あります:") ::
            (unloc.take 5).map (fun u => "  - " ++ u.name) ++
            (if 5 < unloc.length then
              ["  ... 他 " ++ toString (unloc.length - 5) ++ " 件"]
            else []))) := by
  refine ⟨?_, ?_, ?_⟩
  · intro h
    subst h
    simp [renderLines]
  · intro h
    cases sorted with
    | nil => exact absurd rfl h
    | cons p ps => exact ⟨_, rfl⟩
  · exact ⟨_, rfl⟩

/-- C4: for every record list returned by the document store, the ranked
list is a permutation of exactly the records whose geocoded coordinate lies
within `max_distance_km` of the reference (in store order), sorted ascending
by distance; ties keep the original store order (stable sort: any ordered
pair of the kept list stays a sublist of the ranked list); the rendering
states the no-match case explicitly, lists the ranked records in order, and
appends at most 5 unlocatable names with the count of any remainder. -/
theorem find_nearby_ranking (geo : String → Option (ℝ × ℝ)) (pyStr fmt1 : ℝ → String)
    (refLoc : String) (refLat refLon maxD : ℝ) (results : List NotionItem) :
    (sortPlaces (classify geo refLat refLon maxD results).1).Perm
      (results.filterMap (withinRadius geo refLat refLon maxD)) ∧
    (sortPlaces (classify geo refLat refLon maxD results).1).Pairwise
      (fun a b => a.distance ≤ b.distance) ∧
    (∀ a b : Place, List.Sublist [a, b] (results.filterMap (withinRadius geo refLat refLon maxD)) →
      a.distance ≤ b.distance →
      List.Sublist [a, b] (sortPlaces (classify geo refLat refLon maxD results).1)) ∧
    (sortPlaces (classify geo refLat refLon maxD results).1 = [] →
      ("該当する場所はありませんでした（" ++ pyStr maxD ++ "km以内）。") ∈
        renderLines pyStr fmt1 refLoc maxD
          (sortPlaces (classify geo refLat refLon maxD results).1)
          (classify geo refLat refLon maxD results).2.1) ∧
    (sortPlaces (classify geo refLat refLon maxD results).1 ≠ [] →
      ∃ tail, renderLines pyStr fmt1 refLoc maxD
          (sortPlaces (classify geo refLat refLon maxD results).1)
          (classify geo refLat refLon maxD results).2.1 =
        ("「" ++ refLoc ++ "」から " ++ pyStr maxD ++ "km 以内の場所:\n") ::
          numberPlaces fmt1 1 (sortPlaces (classify geo refLat refLon maxD results).1)
            ++ tail) ∧
    (∃ pre, renderLines pyStr fmt1 refLoc maxD
        (sortPlaces (classify geo refLat refLon maxD results).1)
        (classify geo refLat refLon maxD results).2.1 =
      pre ++ (match (classify geo refLat refLon maxD results).2.1 with
        | [] => []
        | _ =>
          ("\n※ 住所が未登録で検索できなかった場所が " ++
              toString (classify geo refLat refLon maxD results).2.1.length ++
              " 件あります:") ::
            ((classify geo refLat refLon maxD results).2.1.take 5).map
              (fun u => "  - " ++ u.name) ++
            (if 5 < (classify geo refLat refLon maxD results).2.1.length then
              ["  ... 他 " ++
                toString ((classify geo refLat refLon maxD results).2.1.length - 5) ++ " 件"]
            else []))) := by
  refine ⟨?_, ?_, ?_,
    (renderLines_decomp pyStr fmt1 refLoc maxD _ _).1,
    (renderLines_decomp pyStr fmt1 refLoc maxD _ _).2.1,
    (renderLines_decomp pyStr fmt1 refLoc maxD _ _).2.2⟩
  · rw [sortPlaces, classify_fst]
    exact List.mergeSort_perm _ _
  · exact (List.sorted_mergeSort placeLE_trans placeLE_total _).imp
      (fun h => of_decide_eq_true h)
  · intro a b hsub hab
    rw [sortPlaces]
    exact List.pair_sublist_mergeSort placeLE_trans placeLE_total
      (decide_eq_true hab) (by rw [classify_fst]; exact hsub)
